import Mathlib

/-!
Verification of the leoverse repository: a CLI client that submits an
image-generation job to a remote GraphQL backend, polls its status, fetches
the produced asset URLs, downloads them, and optionally relays prompts from
an Airtable-style datastore.

The Go source is embedded shallowly:

* Pure control flow (branching, loops, counters) is translated directly.
* External effects are oracle parameters: the outcome of each HTTP request
  (the client's `do` helper, `http.Get`, Airtable calls), the authentication
  step, `json.Unmarshal`, `http.DetectContentType`, and filesystem results.
  A value of type `Except Unit R` stands for "the call failed (error), or it
  returned R".
* The two unbounded polling `for` loops are modelled with an explicit fuel
  argument bounding how many iterations are examined; running out of fuel is
  the distinguished outcome `outOfFuel`, which a real execution never
  returns (it just corresponds to looking at a finite prefix of the run).
  Each loop also returns the number of remote status requests it issued, so
  that cancellation properties can speak about "no further calls".
* Go string tests (`strings.HasPrefix`, `strings.Contains`) are expressed on
  the character list of the Lean `String`, which is extensionally the same
  operation and lets concrete instances evaluate.
-/

namespace Leoverse

/-! ## Session store — pkg/leonardo cookie store (src/unnamed/part_000) -/

/-- Fields of the Go struct sessionData that json.Unmarshal fills in.  The
nested User struct is flattened into the three leaf fields; only
accessToken is ever read by the code. -/
structure SessionData where
  userName : String
  userEmail : String
  userSub : String
  expires : String
  accessToken : String
  accessTokenIssuedAt : Int
  accessTokenExpiry : Int
  serverTimestamp : Int
deriving Repr, DecidableEq

/-- Session data whose only populated field is the access token. -/
def SessionData.ofToken (t : String) : SessionData :=
  ⟨"", "", "", "", t, 0, 0, 0⟩

/-- The cookie-pair text prepended by NewMemCookieStore when the credential
does not already contain an assignment; it is the format string
of the fmt.Sprintf call, with the trailing equals sign included. -/
def sessionCookieName : String := "__Secure-next-auth.session-token="

/-- Go strings.HasPrefix(s, "\x7b"): does s start with an opening brace?
Expressed on the character list of s. -/
def startsWithBrace (s : String) : Bool :=
  s.data.head? = some '\x7b'

/-- Go strings.Contains(s, "="): since the needle is a single character,
this is membership of that character in s. -/
def containsEq (s : String) : Bool :=
  s.data.contains '='

/-- The in-memory cookie store: Go struct memCookieStore. -/
structure MemCookieStore where
  cookie : String
deriving Repr, DecidableEq

/-- Embeds NewMemCookieStore (src/unnamed/part_000, lines 27-42).
The standard-library call json.Unmarshal is abstracted as the unmarshal
oracle: some s models a successful parse of the raw input into
sessionData s, none models a parse error.  If the input starts with an
opening brace and parses, the credential becomes the parsed access token;
then, if the credential contains no equals sign, it is formatted as the
named cookie pair. -/
def NewMemCookieStore (unmarshal : String → Option SessionData) (cookie : String) :
    MemCookieStore :=
  let c1 :=
    if startsWithBrace cookie then
      match unmarshal cookie with
      | some session => session.accessToken
      | none => cookie
    else cookie
  let c2 := if containsEq c1 then c1 else sessionCookieName ++ c1
  ⟨c2⟩

/-- Error value of the cookie store: GetCookie's "cookie is not set". -/
inductive CookieError where
  | notSet
deriving Repr, DecidableEq

/-- Embeds memCookieStore.GetCookie (src/unnamed/part_000, lines 44-49). -/
def GetCookie (s : MemCookieStore) : Except CookieError String :=
  if s.cookie = "" then .error .notSet else .ok s.cookie

/-- Embeds memCookieStore.SetCookie (src/unnamed/part_000, lines 51-54). -/
def SetCookie (_s : MemCookieStore) (cookie : String) : MemCookieStore :=
  ⟨cookie⟩

/-! ## Generation orchestrator — pkg/leonardo/image.go -/

/-- Shape of createGenerationResponse as read by createGeneration:
the single field access resp.Data.SDGenerationJob.GenerationID is
flattened to one field. -/
structure CreateGenerationResponse where
  generationID : String
deriving Repr, DecidableEq

/-- One entry of statusResponse.Data.Generations; only Status is read. -/
structure StatusGeneration where
  status : String
deriving Repr, DecidableEq

/-- Shape of statusResponse as read by the polling loop of GenerateImage. -/
structure StatusResponse where
  generations : List StatusGeneration
deriving Repr, DecidableEq

/-- One entry of a feed generation's GeneratedImages list. -/
structure FeedImage where
  id : String
  url : String
  nsfw : Bool
  typename : String
deriving Repr, DecidableEq

/-- One entry of feedResponse.Data.Generations. -/
structure FeedGeneration where
  status : String
  generatedImages : List FeedImage
deriving Repr, DecidableEq

/-- Shape of feedResponse as read by GenerateImage and WaitForGeneration. -/
structure FeedResponse where
  generations : List FeedGeneration
deriving Repr, DecidableEq

/-- The public GeneratedImage struct returned by WaitForGeneration. -/
structure GeneratedImage where
  id : String
  url : String
  nsfw : Bool
  typename : String
deriving Repr, DecidableEq

/-- Errors surfaced by the generation orchestrator.  outOfFuel is the
modelling artifact for truncating the unbounded Go loop at a finite fuel. -/
inductive LeoError where
  | authFailed
  | createRequestFailed
  | emptyGenerationID
  | canceled
  | statusRequestFailed
  | generationFailed
  | feedRequestFailed
  | generationFailedStatus (status : String)
  | outOfFuel
deriving Repr, DecidableEq

/-- Embeds createGeneration (image.go, lines 124-175).  authOk is the
outcome of c.Auth; doCreate is the outcome of the c.do POST carrying the
CreateSDGenerationJob mutation.  An otherwise-successful response whose
generation ID is empty is rejected with emptyGenerationID. -/
def createGeneration (authOk : Bool) (doCreate : Except Unit CreateGenerationResponse) :
    Except LeoError String :=
  if !authOk then .error .authFailed
  else
    match doCreate with
    | .error _ => .error .createRequestFailed
    | .ok resp =>
      if resp.generationID = "" then .error .emptyGenerationID
      else .ok resp.generationID

/-- Embeds the polling for-loop of GenerateImage (image.go, lines 67-90).
cancelled i is true iff the caller's context is done at the i-th wait
boundary (the select between ctx.Done and the 5-second timer); statusDo i
is the outcome of the i-th GetAIGenerationFeedStatuses request.  The first
Nat argument is the remaining fuel, the second the index of the current
wait boundary, which also counts the status requests issued so far; the
returned Nat is the total number of status requests issued.  Cancellation
is observed before a request is sent; a FAILED status ends the loop with
generationFailed, a COMPLETE status ends it successfully, anything else
(including an empty generations list) keeps polling. -/
def statusPollLoop (cancelled : Nat → Bool) (statusDo : Nat → Except Unit StatusResponse) :
    Nat → Nat → Except LeoError Unit × Nat
  | 0, i => (.error .outOfFuel, i)
  | fuel + 1, i =>
    if cancelled i then (.error .canceled, i)
    else
      match statusDo i with
      | .error _ => (.error .statusRequestFailed, i + 1)
      | .ok resp =>
        match resp.generations with
        | [] => statusPollLoop cancelled statusDo fuel (i + 1)
        | g :: _ =>
          if g.status = "FAILED" then (.error .generationFailed, i + 1)
          else if g.status = "COMPLETE" then (.ok (), i + 1)
          else statusPollLoop cancelled statusDo fuel (i + 1)

/-- Result of one run of GenerateImage: the returned value together with the
number of status requests and of feed requests issued. -/
structure GenerateOutcome where
  result : Except LeoError (List String)
  statusCalls : Nat
  feedCalls : Nat
deriving Repr

/-- Embeds GenerateImage (image.go, lines 37-121).  The Auth step of both
GenerateImage and the createGeneration it calls is the single authOk
oracle; doCreate is the job-creation request outcome; cancelled and
statusDo drive the polling loop as in statusPollLoop; doFeed is the
outcome of the final GetAIGenerationFeed request.  On COMPLETE the URL of
every generated image of the first feed generation is collected; a feed
with no generations yields the empty list with no error. -/
def GenerateImage (authOk : Bool) (doCreate : Except Unit CreateGenerationResponse)
    (cancelled : Nat → Bool) (statusDo : Nat → Except Unit StatusResponse)
    (doFeed : Except Unit FeedResponse) (fuel : Nat) : GenerateOutcome :=
  match createGeneration authOk doCreate with
  | .error e => ⟨.error e, 0, 0⟩
  | .ok _generationID =>
    match statusPollLoop cancelled statusDo fuel 0 with
    | (.error e, n) => ⟨.error e, n, 0⟩
    | (.ok _, n) =>
      match doFeed with
      | .error _ => ⟨.error .feedRequestFailed, n, 1⟩
      | .ok feedResp =>
        let urls : List String :=
          match feedResp.generations with
          | [] => []
          | gen :: _ => gen.generatedImages.map (fun img => img.url)
        ⟨.ok urls, n, 1⟩

/-- Embeds the polling for-loop of WaitForGeneration (image.go, lines
190-225), with the same fuel and request-count conventions as
statusPollLoop.  feedDo i is the outcome of the i-th GetAIGenerationFeed
request.  An empty generations list keeps polling; PENDING and IN_PROGRESS
keep polling; COMPLETE returns the converted image list; any other status
ends the loop with a generation-failed error carrying that status. -/
def waitPollLoop (cancelled : Nat → Bool) (feedDo : Nat → Except Unit FeedResponse) :
    Nat → Nat → Except LeoError (List GeneratedImage) × Nat
  | 0, i => (.error .outOfFuel, i)
  | fuel + 1, i =>
    if cancelled i then (.error .canceled, i)
    else
      match feedDo i with
      | .error _ => (.error .statusRequestFailed, i + 1)
      | .ok resp =>
        match resp.generations with
        | [] => waitPollLoop cancelled feedDo fuel (i + 1)
        | gen :: _ =>
          if gen.status = "PENDING" then waitPollLoop cancelled feedDo fuel (i + 1)
          else if gen.status = "IN_PROGRESS" then waitPollLoop cancelled feedDo fuel (i + 1)
          else if gen.status = "COMPLETE" then
            (.ok (gen.generatedImages.map fun img => ⟨img.id, img.url, img.nsfw, img.typename⟩),
              i + 1)
          else (.error (.generationFailedStatus gen.status), i + 1)

/-- Embeds WaitForGeneration (image.go, lines 177-226): the loop starting
at the first wait boundary. -/
def WaitForGeneration (cancelled : Nat → Bool) (feedDo : Nat → Except Unit FeedResponse)
    (fuel : Nat) : Except LeoError (List GeneratedImage) × Nat :=
  waitPollLoop cancelled feedDo fuel 0

/-! ## Datastore relay — pkg/airtable/airtable.go -/

/-- A dynamic field value of a record: the Go Fields map has type
map of string to interface, and the code performs type assertions to bool
and to string on its entries; otherV stands for a value of any other
dynamic type. -/
inductive FieldVal where
  | boolV (b : Bool)
  | strV (s : String)
  | otherV
deriving Repr, DecidableEq

/-- The Go Record struct: an ID and its Fields map, modelled as an
association list over the field names. -/
structure Record where
  id : String
  fields : List (String × FieldVal)
deriving Repr, DecidableEq

/-- Lookup of a field in the Fields map of a record. -/
def getField (r : Record) (key : String) : Option FieldVal :=
  (r.fields.find? fun p => p.1 = key).map fun p => p.2

/-- Go comma-ok pattern: generated, ok := record.Fields of "Generated"
asserted to bool, then ok and generated — true iff the field exists, is a
bool, and is true. -/
def isGeneratedSet (r : Record) : Bool :=
  match getField r "Generated" with
  | some (.boolV b) => b
  | _ => false

/-- Go comma-ok pattern: prompt, ok := record.Fields of "Prompt" asserted
to string — some prompt iff the field exists and is a string. -/
def promptOf (r : Record) : Option String :=
  match getField r "Prompt" with
  | some (.strV s) => some s
  | _ => none

/-- Airtable's documented attachment limit checked by UpdateRecord:
5 times 1024 times 1024 bytes. -/
def maxSize : Nat := 5 * 1024 * 1024

/-- The two remote writes UpdateRecord can issue, in order: the POST to the
attachment-upload endpoint, then the PATCH setting the Generated flag. -/
inductive RemoteCall where
  | uploadAttachment
  | patchRecord
deriving Repr, DecidableEq

/-- Errors surfaced by UpdateRecord.  The first three arise from local
validation before any remote call; the rest report remote failures. -/
inductive AirtableError where
  | emptyImageData
  | imageTooLarge
  | invalidImageFormat (mime : String)
  | uploadRequestFailed
  | uploadBadStatus (code : Nat)
  | updateRequestFailed
  | updateBadStatus (code : Nat)
deriving Repr, DecidableEq

/-- True exactly on the errors produced by UpdateRecord's local input
validation (empty data, oversized data, non-image signature). -/
def AirtableError.isValidation : AirtableError → Bool
  | .emptyImageData => true
  | .imageTooLarge => true
  | .invalidImageFormat _ => true
  | _ => false

/-- Go strings.HasPrefix(mimeType, "image/"), expressed on character
lists. -/
def hasImageMimeType (mime : String) : Bool :=
  "image/".data.isPrefixOf mime.data

/-- Embeds UpdateRecord (airtable.go, lines 75-179).  The standard-library
call http.DetectContentType is abstracted as the detect oracle; the two
remote writes are the uploadOutcome and updateOutcome oracles, each either
a network failure (error) or an HTTP status code.  The returned list
records which remote calls were issued, in order.  Validation rejects
empty data, data over maxSize bytes, and data whose sniffed content type
is not an image type, in each case before any remote call; the upload must
return status 200 before the PATCH marking the record Generated is
issued. -/
def UpdateRecord (detect : List UInt8 → String)
    (uploadOutcome updateOutcome : Except Unit Nat)
    (imageData : List UInt8) : Except AirtableError Unit × List RemoteCall :=
  if imageData.length = 0 then (.error .emptyImageData, [])
  else if imageData.length > maxSize then (.error .imageTooLarge, [])
  else
    let mimeType := detect imageData
    if !hasImageMimeType mimeType then (.error (.invalidImageFormat mimeType), [])
    else
      match uploadOutcome with
      | .error _ => (.error .uploadRequestFailed, [.uploadAttachment])
      | .ok code =>
        if code ≠ 200 then (.error (.uploadBadStatus code), [.uploadAttachment])
        else
          match updateOutcome with
          | .error _ => (.error .updateRequestFailed, [.uploadAttachment, .patchRecord])
          | .ok code2 =>
            if code2 ≠ 200 then
              (.error (.updateBadStatus code2), [.uploadAttachment, .patchRecord])
            else (.ok (), [.uploadAttachment, .patchRecord])

/-- Embeds the per-record loop of ProcessPrompts (airtable.go, lines
195-273), accumulating the processed and skipped counters.  A record whose
Generated flag is set is skipped and counted in skippedCount; a record
without a valid prompt string, or with an empty one, is skipped with a
logged warning but no counter change; otherwise the whole downstream chain
(the processFunc handler, the file stat, the directory scan, the file
read, the non-empty check, and UpdateRecord) is abstracted by the succeed
oracle — every failure in that chain just continues with no counter
change, and success increments processedCount. -/
def processLoop (succeed : Record → Bool) : List Record → Nat → Nat → Nat × Nat
  | [], processed, skipped => (processed, skipped)
  | r :: rest, processed, skipped =>
    if isGeneratedSet r then processLoop succeed rest processed (skipped + 1)
    else
      match promptOf r with
      | none => processLoop succeed rest processed skipped
      | some prompt =>
        if prompt = "" then processLoop succeed rest processed skipped
        else if succeed r then processLoop succeed rest (processed + 1) skipped
        else processLoop succeed rest processed skipped

/-- The final counts printed by ProcessPrompts: total records, processed,
skipped. -/
structure ProcessSummary where
  total : Nat
  processed : Nat
  skipped : Nat
deriving Repr, DecidableEq

/-- Embeds ProcessPrompts (airtable.go, lines 181-279) for a non-empty
listing outcome: the counters produced by the record loop together with
the total record count of the summary line.  (On an empty listing the Go
function returns before printing a summary; on a listing error it returns
that error — both leave no counts to speak about.) -/
def ProcessPrompts (succeed : Record → Bool) (records : List Record) : ProcessSummary :=
  let pair := processLoop succeed records 0 0
  ⟨records.length, pair.1, pair.2⟩

/-! ## Downloader — downloadImage (src/unnamed/part_001, lines 102-117) -/

/-- Errors of downloadImage: the http.Get failure, the os.Create failure
and the io.Copy failure, in the order the code can hit them. -/
inductive DownloadError where
  | fetchFailed
  | createFailed
  | copyFailed
deriving Repr, DecidableEq

/-- The response of http.Get as far as downloadImage could observe it: the
status code and the body bytes. -/
structure DlResponse where
  statusCode : Nat
  body : List UInt8
deriving Repr, DecidableEq

/-- Embeds downloadImage (src/unnamed/part_001, lines 102-117).  getOutcome
is the outcome of http.Get; createOk tells whether os.Create succeeded and
copyOk whether io.Copy succeeded.  The code inspects no part of a
successful response — in particular not its status code — before copying
the body into the destination file. -/
def downloadImage (getOutcome : Except Unit DlResponse)
    (createOk : Bool) (copyOk : Bool) : Except DownloadError Unit :=
  match getOutcome with
  | .error _ => .error .fetchFailed
  | .ok _resp =>
    if !createOk then .error .createFailed
    else if !copyOk then .error .copyFailed
    else .ok ()

/-- True exactly on the errors produced by UpdateRecord's local input
validation, lifted to its result. -/
def isValidationResult : Except AirtableError Unit → Bool
  | .error e => e.isValidation
  | .ok _ => false

/-! ## Helper lemmas -/

/-- A string containing an equals sign is not empty. -/
theorem containsEq_ne_empty (s : String) (h : containsEq s = true) : s ≠ "" := by
  intro he
  subst he
  simp [containsEq] at h

/-- Prepending the cookie-pair name yields a non-empty string. -/
theorem cookieName_append_ne_empty (s : String) : sessionCookieName ++ s ≠ "" := by
  intro he
  have hd := congrArg String.data he
  rw [String.data_append] at hd
  simp at hd
  exact absurd hd.1 (by decide)

/-- The second normalization step of NewMemCookieStore never produces the
empty string. -/
theorem formatted_ne_empty (s : String) :
    (if containsEq s then s else sessionCookieName ++ s) ≠ "" := by
  by_cases h : containsEq s = true
  · rw [if_pos h]; exact containsEq_ne_empty s h
  · rw [if_neg h]; exact cookieName_append_ne_empty s

/-- The credential stored by NewMemCookieStore is never the empty string:
the cookie-name formatting applies exactly when the normalized token has
no equals sign, and the name itself is non-empty. -/
theorem NewMemCookieStore_ne_empty (unmarshal : String → Option SessionData)
    (raw : String) : (NewMemCookieStore unmarshal raw).cookie ≠ "" := by
  unfold NewMemCookieStore
  exact formatted_ne_empty _

/-! ## Claims about the session store -/

/-- C6: for every credential input that is a JSON object text (it starts
with an opening brace and json.Unmarshal parses it into session data), the
credential stored by NewMemCookieStore is the parsed access-token field,
not the raw JSON text: the token itself when it contains an equals sign,
and the token formatted as the named cookie pair otherwise. -/
theorem json_credential_uses_access_token (unmarshal : String → Option SessionData)
    (raw : String) (session : SessionData)
    (hbrace : startsWithBrace raw = true) (hparse : unmarshal raw = some session) :
    (NewMemCookieStore unmarshal raw).cookie =
      if containsEq session.accessToken then session.accessToken
      else sessionCookieName ++ session.accessToken := by
  unfold NewMemCookieStore
  rw [if_pos hbrace, hparse]

/-- Concrete instance of json_credential_uses_access_token: the input text
consisting of an opening and a closing brace parses (under the oracle
below) to session data with access token tok, and the stored credential is
the formatted token. -/
def unmarshalW : String → Option SessionData :=
  fun _ => some (SessionData.ofToken "tok")

theorem json_credential_uses_access_token_check :
    startsWithBrace "\x7b\x7d" = true ∧
    unmarshalW "\x7b\x7d" = some (SessionData.ofToken "tok") ∧
    (NewMemCookieStore unmarshalW "\x7b\x7d").cookie =
      (if containsEq (SessionData.ofToken "tok").accessToken then
        (SessionData.ofToken "tok").accessToken
      else sessionCookieName ++ (SessionData.ofToken "tok").accessToken) :=
  ⟨by decide, rfl,
    json_credential_uses_access_token unmarshalW "\x7b\x7d" (SessionData.ofToken "tok")
      (by decide) rfl⟩

/-- C7: for every bare token input — one that does not start with an
opening brace, so the JSON branch is skipped — containing no equals sign,
the stored credential is the fixed cookie name followed by the token. -/
theorem bare_token_gets_cookie_name (unmarshal : String → Option SessionData)
    (raw : String)
    (hbrace : startsWithBrace raw = false) (heq : containsEq raw = false) :
    (NewMemCookieStore unmarshal raw).cookie = sessionCookieName ++ raw := by
  unfold NewMemCookieStore
  simp [hbrace, heq]

theorem bare_token_gets_cookie_name_check :
    startsWithBrace "sometoken" = false ∧
    containsEq "sometoken" = false ∧
    (NewMemCookieStore unmarshalW "sometoken").cookie = sessionCookieName ++ "sometoken" :=
  ⟨by decide, by decide,
    bare_token_gets_cookie_name unmarshalW "sometoken" (by decide) (by decide)⟩

/-- C10: for every raw input and every unmarshal outcome, the store built
by NewMemCookieStore holds a non-empty credential and GetCookie returns it
rather than the not-configured error; and GetCookie fails with that error
exactly when the stored credential is the empty string. -/
theorem cookie_store_never_unconfigured :
    (∀ (unmarshal : String → Option SessionData) (raw : String),
      GetCookie (NewMemCookieStore unmarshal raw) =
        .ok (NewMemCookieStore unmarshal raw).cookie ∧
      (NewMemCookieStore unmarshal raw).cookie ≠ "") ∧
    ∀ s : MemCookieStore, GetCookie s = .error .notSet ↔ s.cookie = "" := by
  constructor
  · intro unmarshal raw
    refine ⟨?_, NewMemCookieStore_ne_empty unmarshal raw⟩
    unfold GetCookie
    rw [if_neg (NewMemCookieStore_ne_empty unmarshal raw)]
  · intro s
    unfold GetCookie
    by_cases h : s.cookie = ""
    · simp [h]
    · simp [h]

/-! ## Claims about job creation and polling -/

/-- C2: a job-creation call whose response is otherwise successful but
carries an empty generation ID makes createGeneration return the
empty-generation-ID error, and GenerateImage surfaces that error without
issuing a single status or feed request — the empty ID is never treated as
success. -/
theorem empty_generation_id_is_protocol_error
    (resp : CreateGenerationResponse) (hid : resp.generationID = "")
    (cancelled : Nat → Bool) (statusDo : Nat → Except Unit StatusResponse)
    (doFeed : Except Unit FeedResponse) (fuel : Nat) :
    createGeneration true (.ok resp) = .error .emptyGenerationID ∧
    GenerateImage true (.ok resp) cancelled statusDo doFeed fuel =
      ⟨.error .emptyGenerationID, 0, 0⟩ := by
  have h : createGeneration true (.ok resp) = .error .emptyGenerationID := by
    unfold createGeneration
    simp [hid]
  refine ⟨h, ?_⟩
  unfold GenerateImage
  rw [h]

theorem empty_generation_id_is_protocol_error_check :
    (⟨""⟩ : CreateGenerationResponse).generationID = "" ∧
    createGeneration true (.ok ⟨""⟩) = .error .emptyGenerationID ∧
    GenerateImage true (.ok ⟨""⟩) (fun _ => false) (fun _ => .ok ⟨[]⟩) (.ok ⟨[]⟩) 3 =
      ⟨.error .emptyGenerationID, 0, 0⟩ :=
  ⟨rfl,
    (empty_generation_id_is_protocol_error ⟨""⟩ rfl (fun _ => false)
      (fun _ => .ok ⟨[]⟩) (.ok ⟨[]⟩) 3).1,
    (empty_generation_id_is_protocol_error ⟨""⟩ rfl (fun _ => false)
      (fun _ => .ok ⟨[]⟩) (.ok ⟨[]⟩) 3).2⟩

/-- C4: when the backend reports the terminal status FAILED at the first
poll, GenerateImage returns the generation-failed error after that single
status request and never reaches the feed request, so no asset list is
produced; likewise WaitForGeneration, for any reported status other than
PENDING, IN_PROGRESS and COMPLETE, returns the generation-failed error
carrying that status and no image list. -/
theorem failed_status_yields_generation_failed
    (resp : CreateGenerationResponse) (hid : resp.generationID ≠ "")
    (cancelled : Nat → Bool) (statusDo : Nat → Except Unit StatusResponse)
    (doFeed : Except Unit FeedResponse) (feedDo : Nat → Except Unit FeedResponse)
    (sresp : StatusResponse) (g : StatusGeneration) (gs : List StatusGeneration)
    (fresp : FeedResponse) (fg : FeedGeneration) (fgs : List FeedGeneration)
    (fuel : Nat)
    (hc : cancelled 0 = false)
    (hs : statusDo 0 = .ok sresp) (hgen : sresp.generations = g :: gs)
    (hfail : g.status = "FAILED")
    (hf : feedDo 0 = .ok fresp) (hfgen : fresp.generations = fg :: fgs)
    (hnp : fg.status ≠ "PENDING") (hni : fg.status ≠ "IN_PROGRESS")
    (hnc : fg.status ≠ "COMPLETE") :
    GenerateImage true (.ok resp) cancelled statusDo doFeed (fuel + 1) =
      ⟨.error .generationFailed, 1, 0⟩ ∧
    WaitForGeneration cancelled feedDo (fuel + 1) =
      (.error (.generationFailedStatus fg.status), 1) := by
  have hcr : createGeneration true (.ok resp) = .ok resp.generationID := by
    unfold createGeneration
    simp [hid]
  have hpoll : statusPollLoop cancelled statusDo (fuel + 1) 0 =
      (.error .generationFailed, 1) := by
    unfold statusPollLoop
    simp [hc, hs, hgen, hfail]
  constructor
  · unfold GenerateImage
    rw [hcr, hpoll]
  · unfold WaitForGeneration waitPollLoop
    simp [hc, hf, hfgen, hnp, hni, hnc]

/-- Concrete oracle: the cancellation signal never fires. -/
def cancelledW0 : Nat → Bool := fun _ => false

/-- Concrete oracle: every status request reports FAILED. -/
def statusDoFailed : Nat → Except Unit StatusResponse := fun _ => .ok ⟨[⟨"FAILED"⟩]⟩

/-- Concrete oracle: every status request reports COMPLETE. -/
def statusDoComplete : Nat → Except Unit StatusResponse := fun _ => .ok ⟨[⟨"COMPLETE"⟩]⟩

/-- Concrete oracle: every feed request reports a TIMED_OUT generation. -/
def feedDoTimedOut : Nat → Except Unit FeedResponse := fun _ => .ok ⟨[⟨"TIMED_OUT", []⟩]⟩

theorem failed_status_yields_generation_failed_check :
    cancelledW0 0 = false ∧
    statusDoFailed 0 = .ok ⟨[⟨"FAILED"⟩]⟩ ∧
    feedDoTimedOut 0 = .ok ⟨[⟨"TIMED_OUT", []⟩]⟩ ∧
    GenerateImage true (.ok ⟨"id1"⟩) cancelledW0 statusDoFailed (.ok ⟨[]⟩) 3 =
      ⟨.error .generationFailed, 1, 0⟩ ∧
    WaitForGeneration cancelledW0 feedDoTimedOut 3 =
      (.error (.generationFailedStatus "TIMED_OUT"), 1) :=
  ⟨rfl, rfl, rfl,
    (failed_status_yields_generation_failed ⟨"id1"⟩ (by decide) cancelledW0
      statusDoFailed (.ok ⟨[]⟩) feedDoTimedOut ⟨[⟨"FAILED"⟩]⟩ ⟨"FAILED"⟩ []
      ⟨[⟨"TIMED_OUT", []⟩]⟩ ⟨"TIMED_OUT", []⟩ [] 2 rfl rfl rfl rfl rfl rfl
      (by decide) (by decide) (by decide)).1,
    (failed_status_yields_generation_failed ⟨"id1"⟩ (by decide) cancelledW0
      statusDoFailed (.ok ⟨[]⟩) feedDoTimedOut ⟨[⟨"FAILED"⟩]⟩ ⟨"FAILED"⟩ []
      ⟨[⟨"TIMED_OUT", []⟩]⟩ ⟨"TIMED_OUT", []⟩ [] 2 rfl rfl rfl rfl rfl rfl
      (by decide) (by decide) (by decide)).2⟩

/-- C5: when the backend reports COMPLETE at the first poll and the
subsequent feed query succeeds but carries zero generated assets — either
no generations at all, or a first generation with an empty image list —
GenerateImage returns the empty asset list with no error. -/
theorem complete_with_no_assets_returns_empty
    (resp : CreateGenerationResponse) (hid : resp.generationID ≠ "")
    (cancelled : Nat → Bool) (statusDo : Nat → Except Unit StatusResponse)
    (sresp : StatusResponse) (g : StatusGeneration) (gs : List StatusGeneration)
    (fresp : FeedResponse) (fuel : Nat)
    (hc : cancelled 0 = false)
    (hs : statusDo 0 = .ok sresp) (hgen : sresp.generations = g :: gs)
    (hcomp : g.status = "COMPLETE")
    (hempty : fresp.generations = [] ∨
      ∃ gen rest, fresp.generations = gen :: rest ∧ gen.generatedImages = []) :
    GenerateImage true (.ok resp) cancelled statusDo (.ok fresp) (fuel + 1) =
      ⟨.ok [], 1, 1⟩ := by
  have hcr : createGeneration true (.ok resp) = .ok resp.generationID := by
    unfold createGeneration
    simp [hid]
  have hpoll : statusPollLoop cancelled statusDo (fuel + 1) 0 = (.ok (), 1) := by
    unfold statusPollLoop
    simp [hc, hs, hgen, hcomp]
  unfold GenerateImage
  rw [hcr, hpoll]
  rcases hempty with h | ⟨gen, rest, h, himg⟩
  · simp [h]
  · simp [h, himg]

theorem complete_with_no_assets_returns_empty_check :
    cancelledW0 0 = false ∧
    statusDoComplete 0 = .ok ⟨[⟨"COMPLETE"⟩]⟩ ∧
    GenerateImage true (.ok ⟨"id1"⟩) cancelledW0 statusDoComplete (.ok ⟨[]⟩) 3 =
      ⟨.ok [], 1, 1⟩ :=
  ⟨rfl, rfl,
    complete_with_no_assets_returns_empty ⟨"id1"⟩ (by decide) cancelledW0
      statusDoComplete ⟨[⟨"COMPLETE"⟩]⟩ ⟨"COMPLETE"⟩ [] ⟨[]⟩ 2 rfl rfl rfl rfl
      (Or.inl rfl)⟩

/-! ## Claims about the datastore relay -/

/-- C8: an upload payload that is empty, exceeds the 5 MiB bound, or whose
sniffed content type is not an image type makes UpdateRecord return one of
its local validation errors with an empty list of issued remote calls — in
particular neither the attachment upload nor the PATCH that sets the
record's Generated flag happens, so the flag is unchanged. -/
theorem upload_validation_blocks_remote_calls
    (detect : List UInt8 → String) (uploadOutcome updateOutcome : Except Unit Nat)
    (imageData : List UInt8)
    (h : imageData.length = 0 ∨ maxSize < imageData.length ∨
      hasImageMimeType (detect imageData) = false) :
    isValidationResult (UpdateRecord detect uploadOutcome updateOutcome imageData).1 = true ∧
    (UpdateRecord detect uploadOutcome updateOutcome imageData).2 = [] := by
  unfold UpdateRecord
  rcases h with h | h | h
  · simp [h, isValidationResult, AirtableError.isValidation]
  · have h0 : ¬ imageData.length = 0 := by omega
    simp [h0, h, isValidationResult, AirtableError.isValidation]
  · by_cases h0 : imageData.length = 0
    · simp [h0, isValidationResult, AirtableError.isValidation]
    · by_cases h1 : maxSize < imageData.length
      · simp [h0, h1, isValidationResult, AirtableError.isValidation]
      · simp [h0, h1, h, isValidationResult, AirtableError.isValidation]

/-- Concrete oracle: content sniffing that never reports an image type, as
http.DetectContentType does on text payloads. -/
def detectTextPlain : List UInt8 → String := fun _ => "text/plain; charset=utf-8"

theorem upload_validation_blocks_remote_calls_check :
    hasImageMimeType (detectTextPlain [65]) = false ∧
    isValidationResult (UpdateRecord detectTextPlain (.ok 200) (.ok 200) [65]).1 = true ∧
    (UpdateRecord detectTextPlain (.ok 200) (.ok 200) [65]).2 = [] :=
  ⟨by decide,
    (upload_validation_blocks_remote_calls detectTextPlain (.ok 200) (.ok 200) [65]
      (Or.inr (Or.inr (by decide)))).1,
    (upload_validation_blocks_remote_calls detectTextPlain (.ok 200) (.ok 200) [65]
      (Or.inr (Or.inr (by decide)))).2⟩

/-! ## Claims about the downloader -/

/-- C9 counterexample: the claim says downloadImage fails on every non-2xx
HTTP response, but the code never inspects the status code — with a 404
response and a successful local write it returns success. -/
theorem download_ignores_status_counterexample :
    downloadImage (.ok ⟨404, []⟩) true true = .ok () := rfl

/-- C9 amended: downloadImage fails with an error when the network request
fails, when creating the destination file fails, and when copying the body
fails; but it performs no status check, so any response — whatever its
status code — whose body is written successfully is reported as
success. -/
theorem download_error_conditions :
    (∀ (c k : Bool), downloadImage (.error ()) c k = .error .fetchFailed) ∧
    (∀ (resp : DlResponse) (k : Bool),
      downloadImage (.ok resp) false k = .error .createFailed) ∧
    (∀ resp : DlResponse, downloadImage (.ok resp) true false = .error .copyFailed) ∧
    (∀ resp : DlResponse, downloadImage (.ok resp) true true = .ok ()) :=
  ⟨fun _ _ => rfl, fun _ _ => rfl, fun _ => rfl, fun _ => rfl⟩

/-- The skipped counter of the record loop never decreases below its
initial value. -/
theorem processLoop_skipped_le (succeed : Record → Bool) :
    ∀ (rs : List Record) (p s : Nat), s ≤ (processLoop succeed rs p s).2 := by
  intro rs
  induction rs with
  | nil =>
    intro p s
    simp [processLoop]
  | cons r rest ih =>
    intro p s
    unfold processLoop
    split
    · exact le_trans (Nat.le_succ s) (ih p (s + 1))
    · split
      · exact ih p s
      · split
        · exact ih p s
        · split
          · exact ih (p + 1) s
          · exact ih p s

/-- Any record of the listing whose Generated flag is set contributes one
increment to the skipped counter of the record loop. -/
theorem processLoop_skipped_of_mem (succeed : Record → Bool) (r : Record)
    (hr : isGeneratedSet r = true) :
    ∀ (rs : List Record) (p s : Nat), r ∈ rs → s + 1 ≤ (processLoop succeed rs p s).2 := by
  intro rs
  induction rs with
  | nil =>
    intro p s h
    exact absurd h (List.not_mem_nil r)
  | cons a rest ih =>
    intro p s hmem
    unfold processLoop
    rcases List.mem_cons.mp hmem with heq | hmem2
    · rw [heq] at hr
      rw [if_pos hr]
      exact processLoop_skipped_le succeed rest p (s + 1)
    · split
      · exact processLoop_skipped_le succeed rest p (s + 1)
      · split
        · exact ih p s hmem2
        · split
          · exact ih p s hmem2
          · split
            · exact ih (p + 1) s hmem2
            · exact ih p s hmem2

/-- A five-item listing in which the second record is already marked
Generated and the fifth has an empty prompt. -/
def c3Records : List Record :=
  [⟨"rec1", [("Prompt", .strV "alpha")]⟩,
   ⟨"rec2", [("Generated", .boolV true), ("Prompt", .strV "beta")]⟩,
   ⟨"rec3", [("Prompt", .strV "gamma")]⟩,
   ⟨"rec4", [("Prompt", .strV "delta")]⟩,
   ⟨"rec5", [("Prompt", .strV "")]⟩]

/-- C3 counterexample: on a five-record listing whose second record has the
Generated flag set and whose fifth record has an empty prompt (with every
per-item outcome failing), ProcessPrompts reports total 5 but a skipped
count of 1, not at least 2 — only the Generated-flag skip is counted; the
empty-prompt skip leaves the skipped counter untouched. -/
theorem skipped_count_counterexample :
    c3Records.length = 5 ∧
    isGeneratedSet (c3Records.get ⟨1, by decide⟩) = true ∧
    promptOf (c3Records.get ⟨4, by decide⟩) = some "" ∧
    (ProcessPrompts (fun _ => false) c3Records).total = 5 ∧
    (ProcessPrompts (fun _ => false) c3Records).skipped = 1 ∧
    ¬ 2 ≤ (ProcessPrompts (fun _ => false) c3Records).skipped := by
  decide

/-- C3 amended: for every listing of N records in which item 2 has its
Generated flag set and item 5 has an empty prompt, ProcessPrompts reports
a total equal to N and a skipped count of at least 1, regardless of the
per-item outcomes of the remaining items; only completed-flag skips are
counted in the skipped counter, while the empty-prompt item is skipped
with a warning but without incrementing it. -/
theorem batch_counts_total_and_generated_skips
    (succeed : Record → Bool) (records : List Record) (r2 r5 : Record)
    (h2 : records.get? 1 = some r2) (hg : isGeneratedSet r2 = true)
    (h5 : records.get? 4 = some r5) (hp : promptOf r5 = some "") :
    (ProcessPrompts succeed records).total = records.length ∧
    1 ≤ (ProcessPrompts succeed records).skipped := by
  refine ⟨rfl, ?_⟩
  have hmem : r2 ∈ records := List.get?_mem h2
  exact processLoop_skipped_of_mem succeed r2 hg records 0 0 hmem

theorem batch_counts_total_and_generated_skips_check :
    c3Records.get? 1 = some ⟨"rec2", [("Generated", .boolV true), ("Prompt", .strV "beta")]⟩ ∧
    isGeneratedSet ⟨"rec2", [("Generated", .boolV true), ("Prompt", .strV "beta")]⟩ = true ∧
    c3Records.get? 4 = some ⟨"rec5", [("Prompt", .strV "")]⟩ ∧
    promptOf ⟨"rec5", [("Prompt", .strV "")]⟩ = some "" ∧
    (ProcessPrompts (fun _ => false) c3Records).total = c3Records.length ∧
    1 ≤ (ProcessPrompts (fun _ => false) c3Records).skipped :=
  ⟨by decide, by decide, by decide, by decide,
    (batch_counts_total_and_generated_skips (fun _ => false) c3Records
      ⟨"rec2", [("Generated", .boolV true), ("Prompt", .strV "beta")]⟩
      ⟨"rec5", [("Prompt", .strV "")]⟩ (by decide) (by decide) (by decide) (by decide)).1,
    (batch_counts_total_and_generated_skips (fun _ => false) c3Records
      ⟨"rec2", [("Generated", .boolV true), ("Prompt", .strV "beta")]⟩
      ⟨"rec5", [("Prompt", .strV "")]⟩ (by decide) (by decide) (by decide) (by decide)).2⟩

/-! ## Cancellation of the polling loops -/

/-- If the cancellation signal holds at boundary k, the status-polling loop
of GenerateImage issues at most k requests and, given fuel beyond k, never
runs out of fuel: every request is issued at a boundary where the signal
was observed clear, and the loop cannot pass boundary k. -/
theorem statusPollLoop_requests_bounded (cancelled : Nat → Bool)
    (statusDo : Nat → Except Unit StatusResponse) (k : Nat) (hk : cancelled k = true) :
    ∀ (fuel i : Nat), i ≤ k → k < i + fuel →
      (statusPollLoop cancelled statusDo fuel i).2 ≤ k ∧
      (statusPollLoop cancelled statusDo fuel i).1 ≠ .error .outOfFuel := by
  intro fuel
  induction fuel with
  | zero =>
    intro i h1 h2
    omega
  | succ m ih =>
    intro i h1 h2
    by_cases hc : cancelled i = true
    · unfold statusPollLoop
      rw [if_pos hc]
      exact ⟨h1, by simp⟩
    · have hik1 : i + 1 ≤ k := by
        rcases Nat.lt_or_ge i k with h | h
        · omega
        · exact absurd hk (by rw [le_antisymm h1 h] at hc; exact hc)
      unfold statusPollLoop
      rw [if_neg hc]
      split
      · exact ⟨hik1, by simp⟩
      · split
        · exact ih (i + 1) hik1 (by omega)
        · split
          · exact ⟨hik1, by simp⟩
          · split
            · exact ⟨hik1, by simp⟩
            · exact ih (i + 1) hik1 (by omega)

/-- The analogue of statusPollLoop_requests_bounded for the feed-polling
loop of WaitForGeneration. -/
theorem waitPollLoop_requests_bounded (cancelled : Nat → Bool)
    (feedDo : Nat → Except Unit FeedResponse) (k : Nat) (hk : cancelled k = true) :
    ∀ (fuel i : Nat), i ≤ k → k < i + fuel →
      (waitPollLoop cancelled feedDo fuel i).2 ≤ k ∧
      (waitPollLoop cancelled feedDo fuel i).1 ≠ .error .outOfFuel := by
  intro fuel
  induction fuel with
  | zero =>
    intro i h1 h2
    omega
  | succ m ih =>
    intro i h1 h2
    by_cases hc : cancelled i = true
    · unfold waitPollLoop
      rw [if_pos hc]
      exact ⟨h1, by simp⟩
    · have hik1 : i + 1 ≤ k := by
        rcases Nat.lt_or_ge i k with h | h
        · omega
        · exact absurd hk (by rw [le_antisymm h1 h] at hc; exact hc)
      unfold waitPollLoop
      rw [if_neg hc]
      split
      · exact ⟨hik1, by simp⟩
      · split
        · exact ih (i + 1) hik1 (by omega)
        · split
          · exact ih (i + 1) hik1 (by omega)
          · split
            · exact ih (i + 1) hik1 (by omega)
            · split
              · exact ⟨hik1, by simp⟩
              · exact ⟨hik1, by simp⟩

/-- C1: once the caller's cancellation signal has fired (it holds at
boundary k), neither polling loop issues a status request at boundary k or
later — the request count of a run with fuel beyond k stays at most k and
the run never ends by fuel exhaustion; at any boundary where the signal
holds, both loops return the cancellation error immediately with no
further request; and a GenerateImage run whose polling ended with the
cancellation error surfaces exactly that error, issuing no feed request
and returning no partial asset list. -/
theorem cancellation_aborts_polling (cancelled : Nat → Bool)
    (statusDo : Nat → Except Unit StatusResponse) (feedDo : Nat → Except Unit FeedResponse)
    (doCreate : Except Unit CreateGenerationResponse) (resp : CreateGenerationResponse)
    (doFeed : Except Unit FeedResponse) (k fuel i m n : Nat)
    (hk : cancelled k = true) (hfuel : k < fuel) (hi : cancelled i = true)
    (hcr : doCreate = .ok resp) (hid : resp.generationID ≠ "")
    (hpoll : statusPollLoop cancelled statusDo fuel 0 = (.error .canceled, n)) :
    (statusPollLoop cancelled statusDo fuel 0).2 ≤ k ∧
    (statusPollLoop cancelled statusDo fuel 0).1 ≠ .error .outOfFuel ∧
    (waitPollLoop cancelled feedDo fuel 0).2 ≤ k ∧
    (waitPollLoop cancelled feedDo fuel 0).1 ≠ .error .outOfFuel ∧
    statusPollLoop cancelled statusDo (m + 1) i = (.error .canceled, i) ∧
    waitPollLoop cancelled feedDo (m + 1) i = (.error .canceled, i) ∧
    GenerateImage true doCreate cancelled statusDo doFeed fuel =
      ⟨.error .canceled, n, 0⟩ := by
  obtain ⟨hb1, hb2⟩ := statusPollLoop_requests_bounded cancelled statusDo k hk fuel 0
    (Nat.zero_le k) (by omega)
  obtain ⟨hw1, hw2⟩ := waitPollLoop_requests_bounded cancelled feedDo k hk fuel 0
    (Nat.zero_le k) (by omega)
  refine ⟨hb1, hb2, hw1, hw2, ?_, ?_, ?_⟩
  · unfold statusPollLoop
    rw [if_pos hi]
  · unfold waitPollLoop
    rw [if_pos hi]
  · have hcrok : createGeneration true doCreate = .ok resp.generationID := by
      rw [hcr]
      unfold createGeneration
      simp [hid]
    unfold GenerateImage
    rw [hcrok, hpoll]

/-- Concrete oracle: the cancellation signal fires just before the third
wait boundary. -/
def cancelledAt2 : Nat → Bool := fun j => decide (2 ≤ j)

/-- Concrete oracle: every status request reports no generations yet. -/
def statusDoPending : Nat → Except Unit StatusResponse := fun _ => .ok ⟨[]⟩

/-- Concrete oracle: every feed request reports no generations yet. -/
def feedDoPending : Nat → Except Unit FeedResponse := fun _ => .ok ⟨[]⟩

theorem cancellation_aborts_polling_check :
    cancelledAt2 2 = true ∧ cancelledAt2 3 = true ∧
    statusPollLoop cancelledAt2 statusDoPending 5 0 = (.error .canceled, 2) ∧
    (statusPollLoop cancelledAt2 statusDoPending 5 0).2 ≤ 2 ∧
    (statusPollLoop cancelledAt2 statusDoPending 5 0).1 ≠ .error .outOfFuel ∧
    (waitPollLoop cancelledAt2 feedDoPending 5 0).2 ≤ 2 ∧
    (waitPollLoop cancelledAt2 feedDoPending 5 0).1 ≠ .error .outOfFuel ∧
    statusPollLoop cancelledAt2 statusDoPending 1 3 = (.error .canceled, 3) ∧
    waitPollLoop cancelledAt2 feedDoPending 1 3 = (.error .canceled, 3) ∧
    GenerateImage true (.ok ⟨"id1"⟩) cancelledAt2 statusDoPending (.ok ⟨[]⟩) 5 =
      ⟨.error .canceled, 2, 0⟩ := by
  have h := cancellation_aborts_polling cancelledAt2 statusDoPending feedDoPending
    (.ok ⟨"id1"⟩) ⟨"id1"⟩ (.ok ⟨[]⟩) 2 5 3 0 2 (by decide) (by decide) (by decide)
    rfl (by decide) rfl
  exact ⟨by decide, by decide, rfl, h.1, h.2.1, h.2.2.1, h.2.2.2.1, h.2.2.2.2.1,
    h.2.2.2.2.2.1, h.2.2.2.2.2.2⟩

end Leoverse
